import Mathlib

/-!
Verification of the olive2022 image-to-deployment pipeline.

Shallow embedding of `olive2022.py` (single-file Python program): the
identity derivation `vmnetx_url_to_uuid`, the readiness-polling loop
`stage2`, and the conversion pipeline `convert`, together with the Python
standard-library URL parsing the program relies on
(`urllib.parse.urlparse` / `urlunparse`).

Strings are modelled as `List Char` in the parsing core; the pipeline
embeddings use `String` at their interfaces, mirroring the Python code.
External effects (network fetch, subprocess invocation, file deletion,
recipe writing, interactive prompts) are recorded as explicit events in a
trace, with the data read from the outside world supplied by an explicit
environment record.
-/

set_option maxRecDepth 4000

namespace Olive2022

/-! ## Python `urllib.parse` model

Models CPython's `urlsplit`/`urlparse`/`urlunsplit`/`urlunparse` for the
fragment of behavior the program exercises: scheme recognition, netloc
splitting after `//`, fragment/query stripping, params splitting on the
last path segment (only for schemes in `uses_params`), and the
`ValueError` raised for a netloc with unbalanced square brackets
("Invalid IPv6 URL").  The NFKC netloc check and (3.11+) bracketed-host
validation, which reject only exotic inputs, are not modelled. -/

/-- The result of `urlparse`: the 6-tuple
`(scheme, netloc, path, params, query, fragment)`. -/
structure UrlParsed where
  scheme : List Char
  netloc : List Char
  path : List Char
  params : List Char
  query : List Char
  fragment : List Char
deriving DecidableEq, Repr

/-- Parse failure (CPython raises `ValueError`). -/
inductive ParseErr where
  | invalidIPv6
deriving DecidableEq, Repr

/-- CPython `scheme_chars`: ASCII letters, digits, `+`, `-`, `.`. -/
def schemeChars (c : Char) : Bool :=
  c.isAlpha || c.isDigit || c == '+' || c == '-' || c == '.'

/-- CPython removes tab, carriage return and newline from the URL before
parsing (`_UNSAFE_URL_BYTES_TO_REMOVE`). -/
def scrubUrl (u : List Char) : List Char :=
  u.filter (fun c => !(c == '\t' || c == '\r' || c == '\n'))

/-- Split off the scheme: `url[:i].lower()` for the first `:` at `i > 0`
provided the first character is a letter and all of `url[:i]` are scheme
characters; otherwise the scheme is empty and the URL is unchanged. -/
def splitScheme (u : List Char) : List Char × List Char :=
  let pre := u.takeWhile (fun c => c != ':')
  let post := u.dropWhile (fun c => c != ':')
  match post with
  | [] => ([], u)
  | _ :: rest =>
    match pre with
    | [] => ([], u)
    | c :: _ =>
      if c.isAlpha && pre.all schemeChars then (pre.map Char.toLower, rest)
      else ([], u)

/-- CPython `_splitnetloc`: the netloc runs to the first of `/`, `?` or `#`. -/
def splitNetloc (u : List Char) : List Char × List Char :=
  (u.takeWhile (fun c => !(c == '/' || c == '?' || c == '#')),
   u.dropWhile (fun c => !(c == '/' || c == '?' || c == '#')))

/-- Python `s.split(sep, 1)`: the part before the first `sep` and the part after
it (everything, if `sep` is absent, with an empty second component). -/
def splitOnFirst (sep : Char) (u : List Char) : List Char × List Char :=
  (u.takeWhile (fun c => c != sep), (u.dropWhile (fun c => c != sep)).tail)

/-- CPython `uses_params`: the schemes for which `urlparse` splits
`;params` off the last path segment. -/
def usesParams : List (List Char) :=
  ["", "ftp", "hdl", "prospero", "http", "imap", "https", "shttp", "rtsp",
   "rtspu", "sip", "sips", "mms", "sftp", "tel"].map String.toList

/-- CPython `_splitparams`: split `;params` off the last path segment (off the
whole string when it contains no `/`). -/
def splitParamsLastSeg (u : List Char) : List Char × List Char :=
  if u.contains '/' then
    let rev := u.reverse
    let seg := (rev.takeWhile (fun c => c != '/')).reverse
    let pre := (rev.dropWhile (fun c => c != '/')).reverse
    if seg.contains ';' then
      let sp := splitOnFirst ';' seg
      (pre ++ sp.1, sp.2)
    else (u, [])
  else splitOnFirst ';' u

/-- CPython `urlparse`: scheme, then netloc (only after `//`), then
fragment, then query, then params.  A netloc with an unbalanced square
bracket raises `ValueError` ("Invalid IPv6 URL"). -/
def urlparse (url : List Char) : Except ParseErr UrlParsed :=
  let u0 := scrubUrl url
  let sp := splitScheme u0
  let scheme := sp.1
  let np := if sp.2.take 2 = ['/', '/'] then splitNetloc (sp.2.drop 2) else ([], sp.2)
  let netloc := np.1
  if (netloc.contains '[') ≠ (netloc.contains ']') then
    Except.error ParseErr.invalidIPv6
  else
    let fp := splitOnFirst '#' np.2
    let fragment := if np.2.contains '#' then fp.2 else []
    let qp := splitOnFirst '?' fp.1
    let query := if fp.1.contains '?' then qp.2 else []
    let pp :=
      if scheme ∈ usesParams ∧ qp.1.contains ';' = true then
        splitParamsLastSeg qp.1
      else (qp.1, [])
    Except.ok ⟨scheme, netloc, pp.1, pp.2, query, fragment⟩

/-- CPython `urlunsplit` (with `None` components rendered as `[]`). -/
def urlunsplit (scheme netloc u query fragment : List Char) : List Char :=
  let u1 :=
    if netloc ≠ [] ∨ u.take 2 = ['/', '/'] then
      ['/', '/'] ++ netloc ++ (if u ≠ [] ∧ u.take 1 ≠ ['/'] then '/' :: u else u)
    else u
  let u2 := if scheme ≠ [] then scheme ++ ':' :: u1 else u1
  let u3 := if query ≠ [] then u2 ++ '?' :: query else u2
  if fragment ≠ [] then u3 ++ '#' :: fragment else u3

/-- CPython `urlunparse`. -/
def urlunparse (scheme netloc path params query fragment : List Char) : List Char :=
  urlunsplit scheme netloc (if params ≠ [] then path ++ ';' :: params else path)
    query fragment

/-! ## Identity derivation (`vmnetx_url_to_uuid`) -/

/-- Error taxonomy of the spec for the modelled failure modes (CPython
raises `ValueError` / `AssertionError` / `ZeroDivisionError` at the
corresponding places). -/
inductive OliveError where
  | invalidLocator
  | invalidRegistry
  | invalidCredentials
  | assertionFailed
  | divisionByZero
deriving DecidableEq, Repr

/-- The namespace constant
`NAMESPACE_OLIVEARCHIVE = UUID("835a9728-a1f7-4d0f-82f8-cd0da8838673")`
as a 128-bit natural number. -/
def NAMESPACE_OLIVEARCHIVE : Nat := 0x835a9728a1f74d0f82f8cd0da8838673

/-- Models the Python standard library's `uuid.uuid5`: the deterministic
128-bit name-based digest of a namespace and a name (SHA-1 based in
CPython).  Every claim about the program depends only on this being a
pure function of `(namespace, name)`, so the SHA-1 compression is
abstracted to a distinct deterministic mixing function onto 128 bits. -/
def uuid5 (ns : Nat) (name : List Char) : Nat :=
  name.foldl (fun h c => (h * 1099511628211 + c.toNat + 1) % 2 ^ 128) (ns % 2 ^ 128)

/-- Line 43, `vmnetx_url_to_uuid`: parse the URL, rebuild it with the fixed scheme
`vmnetx+https` and without params/query/fragment, and derive the
name-based UUID in the Olive Archive namespace.  A parse failure
propagates (uncaught `ValueError` in Python; `InvalidLocator` in the
spec's taxonomy). -/
def vmnetx_url_to_uuid (url : String) : Except OliveError Nat :=
  match urlparse url.toList with
  | Except.error _ => Except.error OliveError.invalidLocator
  | Except.ok p =>
    Except.ok (uuid5 NAMESPACE_OLIVEARCHIVE
      (urlunparse ("vmnetx+https".toList) p.netloc p.path [] [] []))

/-! ## Deployment Waiter (`stage2`)

`stage2` loops forever: each iteration prints a progress dot and attempts
a 1-second-timeout TCP connection to `("vmi-vnc", 5900)`, reads up to 3
bytes, and breaks out of the loop when they start with `b"RFB"`;
`socket.gaierror`, `ConnectionRefusedError` and `socket.timeout` are
swallowed and the loop sleeps and retries.  After the loop it invokes the
first available VNC viewer.  The loop is modelled with explicit fuel: the
fuel bounds how far the (potentially endless) loop is observed, it is not
a bound present in the program. -/

/-- Outcome of one connection attempt, as classified by the `try` block. -/
inductive Probe where
  | refused
  | nameFail
  | timedOut
  | data (bs : List Nat)
deriving DecidableEq, Repr

/-- The protocol preamble `b"RFB"`. -/
def rfbMagic : List Nat := [82, 70, 66]

/-- The loop leaves `Polling` exactly when the received bytes start with
`b"RFB"`; every exceptional outcome is "not ready yet". -/
def probeReady : Probe → Bool
  | Probe.data bs => rfbMagic.isPrefixOf bs
  | _ => false

/-- Observable events of `stage2`. -/
inductive SEvent where
  | attempt (i : Nat)
  | connected
  | invokeViewer (cmd : String) (arg : String)
  | noViewer
deriving DecidableEq, Repr

/-- Which viewer binaries `shutil.which` finds. -/
structure ViewerEnv where
  remoteViewer : Bool
  gvncviewer : Bool
  vncviewer : Bool
deriving DecidableEq, Repr

/-- Viewer hand-off: `remote-viewer` gets the URL form, the fallback
viewers get `host:display`; with no viewer available the program reports
failure and gives up. -/
def viewerEvent (v : ViewerEnv) : SEvent :=
  if v.remoteViewer then SEvent.invokeViewer "remote-viewer" "vnc://vmi-vnc:5900"
  else if v.gvncviewer then SEvent.invokeViewer "gvncviewer" "vmi-vnc:0"
  else if v.vncviewer then SEvent.invokeViewer "vncviewer" "vmi-vnc:0"
  else SEvent.noViewer

/-- The polling loop, observed for `fuel` iterations starting at attempt
index `i`: returns the trace of attempts (with a `connected` marker when
the handshake is seen) and whether the loop exited. -/
def stage2Poll (probe : Nat → Probe) : Nat → Nat → List SEvent × Bool
  | 0, _ => ([], false)
  | Nat.succ fuel, i =>
    if probeReady (probe i) then ([SEvent.attempt i, SEvent.connected], true)
    else
      let r := stage2Poll probe fuel (i + 1)
      (SEvent.attempt i :: r.1, r.2)

/-- Line 67, `stage2`: poll until the RFB handshake is observed, then (and only
then) hand off to a viewer.  The boolean records whether the `Connected`
state was reached within the observed iterations. -/
def stage2 (probe : Nat → Probe) (v : ViewerEnv) (fuel : Nat) : List SEvent × Bool :=
  let r := stage2Poll probe fuel 0
  if r.2 then (r.1 ++ [viewerEvent v], true) else (r.1, false)

/-! ## Conversion pipeline (`convert`)

`convert` is embedded as a trace-producing function of its parsed
command-line arguments and an environment record carrying everything the
run reads from the outside world (archive metadata, operator responses,
disk sizes).  External side effects are recorded as events; the recipe
file finally written (if any) is additionally returned as
`(path, content)`.  External tools (`qemu-img`, `docker`) are modelled as
succeeding; their failure aborts the Python run via `check=True` but no
claim is about those aborts. -/

/-- The `argparse` arguments consumed by `convert`. -/
structure ConvertArgs where
  dry_run : Bool
  tmp_dir : Option String
  registry : String
  deploy_token : Option String
  url : String
  vmnetx_package : Option String
deriving DecidableEq, Repr

/-- Data read from the VMNetX archive: the `name` attribute of
`vmnetx-package.xml`, and the parsed `vcpu` / `memory` (KiB) texts of
`domain.xml` (`none` when the element is absent, making `findtext` return
its default). -/
structure PackageData where
  name : String
  vcpu : Option Nat
  memoryKiB : Option Nat
deriving DecidableEq, Repr

/-- The outside world of one `convert` run. -/
structure ConvertEnv where
  package : PackageData
  nameResponses : List String
  preSize : Nat
  postSize : Nat
  pushResponse : String
deriving DecidableEq, Repr

/-- Observable events of `convert`, in program order. -/
inductive Event where
  | fetchPackage (url : String)
  | promptName
  | extractDisk
  | unlinkPackage
  | qemuConvert
  | reportCompression (pct : Int)
  | unlinkDiskImg
  | dockerBuild (tag : String)
  | unlinkDockerignore
  | unlinkDockerfile
  | unlinkDiskQcow
  | rmdirTmpdir
  | promptPush
  | dockerPush (tag : String)
  | dockerImageRm (tag : String)
  | writeRecipe (path : String) (content : String)
  | waitReturn
deriving DecidableEq, Repr

/-- How one `convert` run ends.  `stuck` models the name-gate loop
blocking forever on operator input; `exitZero` is `sys.exit()` (a clean
zero-status exit); `failed e` is an uncaught Python exception. -/
inductive Outcome where
  | completed
  | exitZero
  | stuck
  | failed (e : OliveError)
deriving DecidableEq, Repr

/-- Result of a `convert` run: its event trace, how it ended, and the
recipe file written (path and content), if the run got that far. -/
structure ConvertResult where
  events : List Event
  outcome : Outcome
  recipe : Option (String × String)
deriving DecidableEq, Repr

/-- The name-gate predicate: `vmi_fullname in ["", "Virtual Machine"]`. -/
def placeholderName (s : String) : Bool :=
  s == "" || s == "Virtual Machine"

/-- The `while` loop around `input("VM image name: ")`: returns the
number of prompts issued and the accepted name, or `none` when the
supplied responses never satisfy the gate (the real loop would keep
blocking on operator input). -/
def resolveName : String → List String → Option (Nat × String)
  | n, rs =>
    if placeholderName n then
      match rs with
      | [] => none
      | r :: rest => (resolveName r rest).map (fun p => (p.1 + 1, p.2))
    else some (0, n)

/-- Line 153: `cpus = int(domain.findtext("vcpu", default="1"))`. -/
def packageCpus (p : PackageData) : Nat := p.vcpu.getD 1

/-- Line 154: `memory = int(domain.findtext("memory", default="65536")) // 1024`. -/
def packageMemory (p : PackageData) : Nat := p.memoryKiB.getD 65536 / 1024

/-- Line 179:
`compression = 100 - 100 * DISK_QCOW.stat().st_size // DISK_IMG.stat().st_size`
(Python binds this as `100 - ((100 * post) // pre)`). -/
def compressionSavings (pre post : Nat) : Int :=
  (100 : Int) - (100 * post / pre : Nat)

/-- Python `s.split(sep, 1)` where the caller unpacks exactly two values:
`none` models the `ValueError` raised when `sep` does not occur. -/
def splitFirst (sep : Char) (s : String) : Option (String × String) :=
  if s.toList.contains sep then
    some (String.mk (s.toList.takeWhile (fun c => c != sep)),
          String.mk ((s.toList.dropWhile (fun c => c != sep)).tail))
  else none

/-- Python `str.lower` (ASCII, as used on the confirmation response). -/
def lowercase (s : String) : String := String.mk (s.toList.map Char.toLower)

/-- Line 215:
`input("Ok to push non-restricted image? [yes/no] ").lower().startswith("yes")`. -/
def confirmsPush (s : String) : Bool := (lowercase s).toList.take 3 == "yes".toList

/-- The UUID the pipeline derives from the already-parsed URL (the body
of `vmnetx_url_to_uuid` after its `urlparse`). -/
def deriveUuid (p : UrlParsed) : Nat :=
  uuid5 NAMESPACE_OLIVEARCHIVE
    (urlunparse ("vmnetx+https".toList) p.netloc p.path [] [] [])

/-- Python `str(uuid)`: 32 lowercase hex digits in 8-4-4-4-12 grouping. -/
def uuidStr (n : Nat) : String :=
  let h := ((List.range 32).reverse).map (fun i => Nat.digitChar (n / 16 ^ i % 16))
  String.mk (h.take 8 ++ '-' :: (h.drop 8).take 4 ++ '-' :: (h.drop 12).take 4
    ++ '-' :: (h.drop 16).take 4 ++ '-' :: h.drop 20)

/-- Line 188: `DOCKER_TAG = f"{args.registry}/{sinfonia_uuid}:latest"`. -/
def dockerTag (registry : String) (u : Nat) : String :=
  registry ++ "/" ++ uuidStr u ++ ":latest"

/-- Line 245: `(RECIPES / str(sinfonia_uuid)).with_suffix(".yaml")`. -/
def recipePath (u : Nat) : String := "RECIPES/" ++ uuidStr u ++ ".yaml"

/-- Lines 232-243: the access-control block of the recipe.  With a deploy
token, the registry host is split off before the first `/` and the token
before the first `:`; a missing separator raises `ValueError` in Python
(named `InvalidRegistry` / `InvalidCredentials` in the spec taxonomy).
Without a token the block is just `restricted: false`. -/
def credentialsBlock (deploy_token : Option String) (registry : String) :
    Except OliveError String :=
  match deploy_token with
  | none => Except.ok "  restricted: false"
  | some tok =>
    match splitFirst '/' registry with
    | none => Except.error OliveError.invalidRegistry
    | some rp =>
      match splitFirst ':' tok with
      | none => Except.error OliveError.invalidCredentials
      | some up =>
        Except.ok ("  containerDiskCredentials:\n    registry: \"" ++ rp.1
          ++ "\"\n    username: \"" ++ up.1 ++ "\"\n    password: \"" ++ up.2
          ++ "\"\n  restricted: true\n")

/-- Lines 247-265: the recipe document written to
`RECIPES/{uuid}.yaml`. -/
def recipeContent (fullname registry : String) (u : Nat) (cpus memory : Nat)
    (credentials : String) : String :=
  "description: \"" ++ fullname ++ "\"\n" ++
  "chart: https://cmusatyalab.github.io/olive2022/vmi\n" ++
  "version: 0.1.2\n" ++
  "values:\n" ++
  "  containerDisk:\n" ++
  "    repository: \"" ++ registry ++ "\"\n" ++
  "    name: \"" ++ uuidStr u ++ "\"\n" ++
  "    bus: sata\n" ++
  "  resources:\n" ++
  "    requests:\n" ++
  "      cpu: " ++ toString cpus ++ "\n" ++
  "      memory: " ++ toString memory ++ "Mi\n" ++
  "  virtvnc:\n" ++
  "    fullnameOverride: vmi\n" ++ credentials

/-- Lines 229-266: recipe emission (shared tail of every `convert` branch
that reaches it). -/
def emitRecipe (args : ConvertArgs) (u cpus memory : Nat) (fullname : String)
    (ev : List Event) : ConvertResult :=
  match credentialsBlock args.deploy_token args.registry with
  | Except.error e => ⟨ev, Outcome.failed e, none⟩
  | Except.ok cred =>
    let content := recipeContent fullname args.registry u cpus memory cred
    ⟨ev ++ [Event.writeRecipe (recipePath u) content, Event.waitReturn],
     Outcome.completed, some (recipePath u, content)⟩

/-- The `convert` subcommand (lines 100-266), in program order:
`assert not args.dry_run`; derive the UUID (parse failure propagates);
fetch the package unless one was given on the command line; the
display-name gate; sizing extraction; disk extraction; conditional unlink
of the fetched package; `qemu-img convert`; compression report (suppressed
at exactly 0); conditional unlink of the raw disk; `docker build`; then —
only for an ephemeral temporary directory — cleanup of the build context,
the push-confirmation gate (only without a deploy token; declining is
`sys.exit()`), `docker push` and local image removal; finally recipe
emission. -/
def convert (args : ConvertArgs) (env : ConvertEnv) : ConvertResult :=
  if args.dry_run then ⟨[], Outcome.failed OliveError.assertionFailed, none⟩
  else
    match urlparse args.url.toList with
    | Except.error _ => ⟨[], Outcome.failed OliveError.invalidLocator, none⟩
    | Except.ok p =>
      let u := deriveUuid p
      let ev0 : List Event :=
        match args.vmnetx_package with
        | none => [Event.fetchPackage (String.mk
            (urlunparse ("https".toList) p.netloc p.path p.params p.query p.fragment))]
        | some _ => []
      match resolveName env.package.name env.nameResponses with
      | none =>
        ⟨ev0 ++ List.replicate (env.nameResponses.length + 1) Event.promptName,
         Outcome.stuck, none⟩
      | some kn =>
        let cpus := packageCpus env.package
        let memory := packageMemory env.package
        let ev1 := ev0 ++ List.replicate kn.1 Event.promptName
          ++ [Event.extractDisk]
          ++ (if args.tmp_dir = none ∧ args.vmnetx_package = none then
                [Event.unlinkPackage] else [])
        if env.preSize = 0 then
          ⟨ev1 ++ [Event.qemuConvert], Outcome.failed OliveError.divisionByZero, none⟩
        else
          let c := compressionSavings env.preSize env.postSize
          let ev2 := ev1 ++ [Event.qemuConvert]
            ++ (if c ≠ 0 then [Event.reportCompression c] else [])
            ++ (if args.tmp_dir = none then [Event.unlinkDiskImg] else [])
          let tag := dockerTag args.registry u
          let ev3 := ev2 ++ [Event.dockerBuild tag]
          match args.tmp_dir with
          | some _ => emitRecipe args u cpus memory kn.2 ev3
          | none =>
            let ev4 := ev3 ++ [Event.unlinkDockerignore, Event.unlinkDockerfile,
              Event.unlinkDiskQcow, Event.rmdirTmpdir]
            match args.deploy_token with
            | none =>
              let ev5 := ev4 ++ [Event.promptPush]
              if confirmsPush env.pushResponse then
                emitRecipe args u cpus memory kn.2
                  (ev5 ++ [Event.dockerPush tag, Event.dockerImageRm tag])
              else ⟨ev5, Outcome.exitZero, none⟩
            | some _ =>
              emitRecipe args u cpus memory kn.2
                (ev4 ++ [Event.dockerPush tag, Event.dockerImageRm tag])

/-! ## Observation helpers for the theorems -/

/-- Python `needle in hay` (substring test), used to state what the recipe
document contains. -/
def strContains (hay needle : String) : Bool :=
  (List.range (hay.toList.length + 1)).any
    (fun i => needle.toList.isPrefixOf (hay.toList.drop i))

/-- The text of the recipe a run wrote (empty when none was written). -/
def recipeText (r : ConvertResult) : String := (r.recipe.map Prod.snd).getD ""

/-- Recognizes the recipe-store write event. -/
def isRecipeWrite : Event → Bool
  | Event.writeRecipe _ _ => true
  | _ => false

/-- Recognizes the compression-savings report line. -/
def isReport : Event → Bool
  | Event.reportCompression _ => true
  | _ => false

/-- Recognizes every publication or intermediate-file-cleanup effect:
the push-confirmation prompt, `docker push`, `docker image rm`, and the
deletion of the package archive, raw disk, encoded disk, build context
and temporary directory. -/
def isPublicationOrCleanup : Event → Bool
  | Event.promptPush => true
  | Event.dockerPush _ => true
  | Event.dockerImageRm _ => true
  | Event.unlinkPackage => true
  | Event.unlinkDiskImg => true
  | Event.unlinkDockerignore => true
  | Event.unlinkDockerfile => true
  | Event.unlinkDiskQcow => true
  | Event.rmdirTmpdir => true
  | _ => false

/-- The first acceptable operator response: index (1-based prompt count)
and value of the first response that is not a placeholder. -/
def firstAcceptable : List String → Option (Nat × String)
  | [] => none
  | r :: rest =>
    if placeholderName r then (firstAcceptable rest).map (fun p => (p.1 + 1, p.2))
    else some (1, r)

/-! ## C1 / C9: identity derivation -/

/-- C1: the identity derivation is a pure deterministic function of the
locator, and any two locators whose parses agree on host (netloc) and
path — i.e. locators differing only in their original scheme and/or
trailing query/fragment — derive the same 128-bit identity. -/
theorem uuid_depends_only_on_netloc_path :
    (∀ u : String, vmnetx_url_to_uuid u = vmnetx_url_to_uuid u) ∧
    (∀ (u1 u2 : String) (p1 p2 : UrlParsed),
      urlparse u1.toList = Except.ok p1 → urlparse u2.toList = Except.ok p2 →
      p1.netloc = p2.netloc → p1.path = p2.path →
      vmnetx_url_to_uuid u1 = vmnetx_url_to_uuid u2) := by
  constructor
  · intro u; rfl
  · intro u1 u2 p1 p2 h1 h2 hn hp
    unfold vmnetx_url_to_uuid
    rw [h1, h2]
    show Except.ok (uuid5 NAMESPACE_OLIVEARCHIVE
        (urlunparse ("vmnetx+https".toList) p1.netloc p1.path [] [] []))
      = Except.ok (uuid5 NAMESPACE_OLIVEARCHIVE
        (urlunparse ("vmnetx+https".toList) p2.netloc p2.path [] [] []))
    rw [hn, hp]

/-- C1 witness: a `vmnetx://` locator with a query and an `https://`
locator with a fragment, sharing host and path, derive equal
identities. -/
theorem uuid_depends_only_on_netloc_path_witness :
    vmnetx_url_to_uuid "vmnetx://olive.example.org/vmi.netx?ticket=42"
      = vmnetx_url_to_uuid "https://olive.example.org/vmi.netx#frag" :=
  uuid_depends_only_on_netloc_path.2 _ _
    ⟨"vmnetx".toList, "olive.example.org".toList, "/vmi.netx".toList, [],
      "ticket=42".toList, []⟩
    ⟨"https".toList, "olive.example.org".toList, "/vmi.netx".toList, [], [],
      "frag".toList⟩
    rfl rfl rfl rfl

/-- C9: on a locator the URL parser rejects, the identity derivation
fails with `InvalidLocator` and returns no identity. -/
theorem malformed_locator_rejected (u : String) (e : ParseErr)
    (h : urlparse u.toList = Except.error e) :
    vmnetx_url_to_uuid u = Except.error OliveError.invalidLocator
    ∧ ∀ n : Nat, vmnetx_url_to_uuid u ≠ Except.ok n := by
  unfold vmnetx_url_to_uuid
  rw [h]
  exact ⟨rfl, fun n hc => Except.noConfusion hc⟩

/-- C9 witness: an unparsable locator (unbalanced IPv6 bracket) is
rejected with `InvalidLocator`. -/
theorem malformed_locator_rejected_witness :
    vmnetx_url_to_uuid "http://[::1/vmi.netx" = Except.error OliveError.invalidLocator :=
  (malformed_locator_rejected "http://[::1/vmi.netx" ParseErr.invalidIPv6 rfl).1

/-! ## C5: package sizing normalization -/

/-- C5: memory is normalized from KiB to MiB by integer division dropping
the remainder (`131072 ↦ 128`, `1500 ↦ 1`), and absent sizing fields take
the defaults (1 CPU, `65536 // 1024 = 64` memory units). -/
theorem package_sizing_normalization (nm : String) (v : Option Nat) (m q r : Nat)
    (hm : m = 1024 * q + r) (hr : r < 1024) :
    packageMemory ⟨nm, v, some m⟩ = q
    ∧ packageMemory ⟨nm, v, some 131072⟩ = 128
    ∧ packageMemory ⟨nm, v, some 1500⟩ = 1
    ∧ packageCpus ⟨nm, none, some m⟩ = 1
    ∧ packageMemory ⟨nm, v, none⟩ = 64 := by
  refine ⟨?_, by norm_num [packageMemory], by norm_num [packageMemory],
    by norm_num [packageCpus], by norm_num [packageMemory]⟩
  unfold packageMemory
  simp only [Option.getD_some]
  rw [hm, Nat.mul_add_div (by norm_num), Nat.div_eq_of_lt hr, Nat.add_zero]

/-- C5 witness: `1500 KiB ↦ 1` via the division characterization. -/
theorem package_sizing_normalization_witness :
    packageMemory ⟨"vm", none, some 1500⟩ = 1 :=
  (package_sizing_normalization "vm" none 1500 1 476 (by norm_num) (by norm_num)).1

/-! ## C3: compression reporting -/

/-- Arguments of a run kept entirely inside a persistent working
directory (shortest trace reaching the compression report). -/
def reportArgs : ConvertArgs :=
  ⟨false, some "work", "reg.example.com/proj", none,
   "vmnetx+https://olive.example.org/vmi.netx", none⟩

/-- Environment with pre-size 1000 and post-size 400. -/
def reportEnvA : ConvertEnv := ⟨⟨"Fedora Test VM", some 1, some 65536⟩, [], 1000, 400, ""⟩

/-- Environment with pre-size 1000 and post-size 1000. -/
def reportEnvB : ConvertEnv := ⟨⟨"Fedora Test VM", some 1, some 65536⟩, [], 1000, 1000, ""⟩

/-- C3: the reported savings are `100 - (100 * post) / pre` with the
division truncating (characterized by quotient/remainder); pre 1000 /
post 400 reports 60% and the line is present in the trace; pre 1000 /
post 1000 computes 0% and the line is suppressed. -/
theorem compression_savings_reporting (pre post q r : Nat) (hpre : 0 < pre)
    (hdiv : 100 * post = pre * q + r) (hr : r < pre) :
    compressionSavings pre post = 100 - (q : Int)
    ∧ compressionSavings 1000 400 = 60
    ∧ compressionSavings 1000 1000 = 0
    ∧ (convert reportArgs reportEnvA).events.contains (Event.reportCompression 60) = true
    ∧ (convert reportArgs reportEnvB).events.all (fun e => !(isReport e)) = true := by
  refine ⟨?_, by decide, by decide, by decide, by decide⟩
  unfold compressionSavings
  rw [hdiv, Nat.mul_add_div hpre, Nat.div_eq_of_lt hr, Nat.add_zero]

/-- C3 witness: instantiated at pre 1000, post 400 (quotient 40,
remainder 0). -/
theorem compression_savings_reporting_witness :
    compressionSavings 1000 400 = 100 - (40 : Int) :=
  (compression_savings_reporting 1000 400 40 0 (by norm_num) (by norm_num)
    (by norm_num)).1

/-! ## C8: display-name gate -/

/-- C8 helper: with no acceptable response the gate never resolves. -/
theorem resolveName_all_placeholder (rs : List String) :
    ∀ n, placeholderName n = true → rs.all placeholderName = true →
      resolveName n rs = none := by
  induction rs with
  | nil => intro n hn _; simp [resolveName, hn]
  | cons r rest ih =>
    intro n hn hall
    simp only [List.all_cons, Bool.and_eq_true] at hall
    simp [resolveName, hn, ih r hall.1 hall.2]

/-- C8: a non-placeholder extracted name passes through unchanged with no
prompt; a placeholder (empty or "Virtual Machine") makes the gate prompt
repeatedly until the first acceptable response; a resolved name is never
a placeholder; and with only placeholder responses the gate never
resolves (the loop blocks on further operator input). -/
theorem display_name_gate (n : String) (rs : List String) :
    (placeholderName n = false → resolveName n rs = some (0, n))
    ∧ (placeholderName n = true → resolveName n rs = firstAcceptable rs)
    ∧ (∀ k m, resolveName n rs = some (k, m) → placeholderName m = false)
    ∧ (placeholderName n = true → rs.all placeholderName = true →
        resolveName n rs = none) := by
  induction rs generalizing n with
  | nil =>
    refine ⟨fun h => ?_, fun h => ?_, fun k m hc => ?_, fun h _ => ?_⟩
    · simp [resolveName, h]
    · simp [resolveName, h, firstAcceptable]
    · by_cases hph : placeholderName n
      · simp [resolveName, hph] at hc
      · rw [Bool.not_eq_true] at hph
        simp [resolveName, hph] at hc
        rw [← hc.2]
        exact hph
    · simp [resolveName, h]
  | cons r rest ih =>
    refine ⟨fun h => ?_, fun h => ?_, fun k m hc => ?_, fun h hall => ?_⟩
    · simp [resolveName, h]
    · by_cases hr : placeholderName r
      · simp [resolveName, h, firstAcceptable, hr, (ih r).2.1 hr]
      · rw [Bool.not_eq_true] at hr
        simp [resolveName, h, firstAcceptable, hr, (ih r).1 hr]
    · by_cases hph : placeholderName n
      · have hc' : Option.map (fun p => (p.1 + 1, p.2)) (resolveName r rest)
            = some (k, m) := by
          rw [← hc]
          simp [resolveName, hph]
        rcases Option.map_eq_some'.mp hc' with ⟨p, hp, hpe⟩
        simp only [Prod.mk.injEq] at hpe
        rw [← hpe.2]
        exact (ih r).2.2.1 p.1 p.2 (by rw [hp])
      · rw [Bool.not_eq_true] at hph
        simp [resolveName, hph] at hc
        rw [← hc.2]
        exact hph
    · exact resolveName_all_placeholder (r :: rest) n h hall

/-- C8 witness: placeholder name "Virtual Machine" with responses
`["", "My VM"]` prompts twice and resolves to "My VM". -/
theorem display_name_gate_witness :
    resolveName "Virtual Machine" ["", "My VM"] = some (2, "My VM") := by
  rw [(display_name_gate "Virtual Machine" ["", "My VM"]).2.1 (by decide)]
  decide

/-! ## C4: Deployment Waiter behavior -/

/-- Helper: while every probe up to attempt `N` fails and attempt `N`
succeeds, the polling loop runs attempts `i..N` and then marks the single
transition to `Connected`. -/
theorem stage2Poll_connects (probe : Nat → Probe) (N : Nat)
    (hN : probeReady (probe N) = true)
    (hlt : ∀ k, k < N → probeReady (probe k) = false) :
    ∀ fuel i, i ≤ N → N - i < fuel →
      stage2Poll probe fuel i =
        ((List.range' i (N + 1 - i)).map SEvent.attempt ++ [SEvent.connected], true) := by
  intro fuel
  induction fuel with
  | zero => intro i _ h2; exact absurd h2 (Nat.not_lt_zero _)
  | succ fuel ih =>
    intro i hi hfi
    by_cases hiN : i = N
    · subst hiN
      simp [stage2Poll, hN, List.range'_one]
    · have hilt : i < N := lt_of_le_of_ne hi hiN
      have hstep : N + 1 - i = (N - (i + 1) + 1) + 1 := by omega
      simp only [stage2Poll, hlt i hilt, Bool.false_eq_true, if_false]
      rw [ih (i + 1) (by omega) (by omega), hstep, List.range'_succ]
      simp
      have harg : N - i = N - (i + 1) + 1 := by omega
      rw [harg]

/-- Helper: while no probe ever succeeds, the polling loop just keeps
attempting: for every observation bound it has made exactly that many
attempts, never connected. -/
theorem stage2Poll_never (probe : Nat → Probe)
    (h : ∀ k, probeReady (probe k) = false) :
    ∀ fuel i, stage2Poll probe fuel i = ((List.range' i fuel).map SEvent.attempt, false) := by
  intro fuel
  induction fuel with
  | zero => intro i; rfl
  | succ fuel ih =>
    intro i
    simp only [stage2Poll, h i, Bool.false_eq_true, if_false]
    rw [ih (i + 1), List.range'_succ]
    simp

/-- Helper: the viewer hand-off is never the `Connected` marker. -/
theorem viewerEvent_ne_connected (v : ViewerEnv) : viewerEvent v ≠ SEvent.connected := by
  unfold viewerEvent
  split_ifs <;> simp

/-- C4: against an endpoint refusing the first `N` attempts and then
answering with bytes starting `RFB`, `stage2` makes exactly `N + 1`
attempts, transitions to `Connected` exactly once, and only after that
transition invokes the viewer; refused / name-resolution-failure /
timed-out probes are each classified not-ready; and a never-ready
endpoint is retried forever — for every observation bound the loop is
still attempting, with no viewer invocation. -/
theorem stage2_waits_then_connects (probe : Nat → Probe) (v : ViewerEnv)
    (N fuel : Nat) (bs : List Nat)
    (href : ∀ k, k < N → probe k = Probe.refused)
    (hdata : probe N = Probe.data bs)
    (hrfb : rfbMagic.isPrefixOf bs = true)
    (hfuel : N < fuel) :
    stage2 probe v fuel
      = ((List.range (N + 1)).map SEvent.attempt ++ [SEvent.connected, viewerEvent v], true)
    ∧ ((List.range (N + 1)).map SEvent.attempt ++ [SEvent.connected, viewerEvent v]).count
        SEvent.connected = 1
    ∧ probeReady Probe.refused = false
    ∧ probeReady Probe.nameFail = false
    ∧ probeReady Probe.timedOut = false
    ∧ (∀ probe2 : Nat → Probe, (∀ k, probeReady (probe2 k) = false) →
        ∀ f2, stage2 probe2 v f2 = ((List.range f2).map SEvent.attempt, false)) := by
  have hN : probeReady (probe N) = true := by
    rw [hdata]
    simpa [probeReady] using hrfb
  have hlt : ∀ k, k < N → probeReady (probe k) = false := by
    intro k hk
    rw [href k hk]
    rfl
  refine ⟨?_, ?_, rfl, rfl, rfl, ?_⟩
  · unfold stage2
    have hp := stage2Poll_connects probe N hN hlt fuel 0 (Nat.zero_le N) (by omega)
    rw [hp]
    simp [List.range_eq_range']
  · have h0 : ((List.range (N + 1)).map SEvent.attempt).count SEvent.connected = 0 := by
      rw [List.count_eq_zero]
      simp
    have h1 : List.count SEvent.connected [viewerEvent v] = 0 := by
      rw [List.count_eq_zero]
      simp [Ne.symm (viewerEvent_ne_connected v)]
    rw [show [SEvent.connected, viewerEvent v]
        = [SEvent.connected] ++ [viewerEvent v] from rfl]
    rw [List.count_append, List.count_append, h0, h1]
    simp
  · intro probe2 h2 f2
    unfold stage2
    rw [stage2Poll_never probe2 h2 f2 0]
    simp [List.range_eq_range']

/-- C4 witness probe: refuses attempts 0 and 1, then answers `RFB`. -/
def witnessProbe (k : Nat) : Probe :=
  if k < 2 then Probe.refused else Probe.data [82, 70, 66]

/-- C4 witness viewers: only `remote-viewer` is installed. -/
def witnessViewers : ViewerEnv := ⟨true, false, false⟩

/-- C4 witness: with two refusals and then an `RFB` answer, `stage2`
(observed for 4 iterations) makes 3 attempts, connects once, and then
invokes `remote-viewer`. -/
theorem stage2_waits_then_connects_witness :
    stage2 witnessProbe witnessViewers 4
      = ((List.range 3).map SEvent.attempt
          ++ [SEvent.connected, viewerEvent witnessViewers], true) :=
  (stage2_waits_then_connects witnessProbe witnessViewers 2 4 [82, 70, 66]
    (by intro k hk; interval_cases k <;> rfl)
    (by rfl) (by decide) (by omega)).1

/-! ## C2: declining the push confirmation -/

/-- A credential-less run with an ephemeral temporary directory whose
operator declines the push confirmation. -/
def declineArgs : ConvertArgs :=
  ⟨false, none, "registry.example.org/olive", none,
   "vmnetx+https://olive.example.org/vm.netx", none⟩

/-- Environment for the declined run (operator answers "no"). -/
def declineEnv : ConvertEnv := ⟨⟨"Test VM", some 2, some 131072⟩, [], 1000, 400, "no"⟩

/-- C2 counterexample: in the declined run the process does exit with
status zero, but no recipe is emitted — the run terminates before recipe
emission, with no recipe-store write anywhere in its trace. -/
theorem decline_push_skips_recipe_cex :
    (convert declineArgs declineEnv).outcome = Outcome.exitZero
    ∧ (convert declineArgs declineEnv).recipe = none
    ∧ (convert declineArgs declineEnv).events.all (fun e => !(isRecipeWrite e)) = true :=
  ⟨by decide, by decide, by decide⟩

/-- C2 (amended): with no deploy credentials and an ephemeral temporary
directory, a negative answer to the push confirmation makes the run
terminate as a clean zero-status early exit — not an error — but it exits
before recipe emission: no deployment recipe is written. -/
theorem decline_push_clean_exit_no_recipe (args : ConvertArgs) (env : ConvertEnv)
    (p : UrlParsed) (kn : Nat × String)
    (hdr : args.dry_run = false)
    (htd : args.tmp_dir = none)
    (hto : args.deploy_token = none)
    (hp : urlparse args.url.toList = Except.ok p)
    (hn : resolveName env.package.name env.nameResponses = some kn)
    (hpre : env.preSize ≠ 0)
    (hno : confirmsPush env.pushResponse = false) :
    (convert args env).outcome = Outcome.exitZero
    ∧ (convert args env).recipe = none := by
  unfold convert
  rw [hdr, hp, hn, htd, hto]
  simp [hpre, hno]

/-- C2 witness: the amended theorem applied to the concrete declined
run. -/
theorem decline_push_clean_exit_no_recipe_witness :
    (convert declineArgs declineEnv).outcome = Outcome.exitZero
    ∧ (convert declineArgs declineEnv).recipe = none :=
  decline_push_clean_exit_no_recipe declineArgs declineEnv
    ⟨"vmnetx+https".toList, "olive.example.org".toList, "/vm.netx".toList, [], [], []⟩
    (0, "Test VM") rfl rfl rfl rfl rfl (by decide) (by decide)

/-! ## C6: recipe access-control block -/

/-- Credential-less conversion aimed at registry
`reg.example.com/proj` (operator confirms the push). -/
def unrestrictedArgs : ConvertArgs :=
  ⟨false, none, "reg.example.com/proj", none,
   "vmnetx+https://olive.example.org/vmi.netx", none⟩

/-- The same conversion with deploy token `alice:secret`. -/
def restrictedArgs : ConvertArgs :=
  ⟨false, none, "reg.example.com/proj", some "alice:secret",
   "vmnetx+https://olive.example.org/vmi.netx", none⟩

/-- Environment for the C6 runs. -/
def recipeEnv : ConvertEnv := ⟨⟨"Fedora Test VM", some 2, some 131072⟩, [], 1000, 400, "yes"⟩

/-- C6: without credentials the recipe's access block is exactly
`restricted: false` and the recipe mentions no credential field; with
token `alice:secret` and registry `reg.example.com/proj` the recipe is
restricted with registry host `reg.example.com` (split before the first
`/`), username `alice` and password `secret` (token split on its first
colon). -/
theorem recipe_access_control_blocks :
    credentialsBlock none "reg.example.com/proj" = Except.ok "  restricted: false"
    ∧ credentialsBlock (some "alice:secret") "reg.example.com/proj"
      = Except.ok ("  containerDiskCredentials:\n    registry: \"reg.example.com\""
          ++ "\n    username: \"alice\"\n    password: \"secret\"\n  restricted: true\n")
    ∧ (convert unrestrictedArgs recipeEnv).outcome = Outcome.completed
    ∧ strContains (recipeText (convert unrestrictedArgs recipeEnv)) "restricted: false" = true
    ∧ strContains (recipeText (convert unrestrictedArgs recipeEnv)) "username" = false
    ∧ strContains (recipeText (convert unrestrictedArgs recipeEnv)) "password" = false
    ∧ strContains (recipeText (convert unrestrictedArgs recipeEnv)) "containerDiskCredentials" = false
    ∧ (convert restrictedArgs recipeEnv).outcome = Outcome.completed
    ∧ strContains (recipeText (convert restrictedArgs recipeEnv)) "restricted: true" = true
    ∧ strContains (recipeText (convert restrictedArgs recipeEnv)) "registry: \"reg.example.com\"" = true
    ∧ strContains (recipeText (convert restrictedArgs recipeEnv)) "username: \"alice\"" = true
    ∧ strContains (recipeText (convert restrictedArgs recipeEnv)) "password: \"secret\"" = true := by
  refine ⟨by rfl, by rfl, by decide, by decide, by decide, by decide, by decide,
    by decide, by decide, by decide, by decide, by decide⟩

/-! ## C7: malformed deploy token -/

/-- Helper: with a well-formed registry and a colon-less token the
access-control construction fails with `InvalidCredentials`. -/
theorem credentialsBlock_no_colon (tok registry : String) (rp : String × String)
    (hreg : splitFirst '/' registry = some rp)
    (hcol : splitFirst ':' tok = none) :
    credentialsBlock (some tok) registry = Except.error OliveError.invalidCredentials := by
  simp only [credentialsBlock, hreg, hcol]

/-- C7: a deploy token containing no colon makes the pipeline fail with
`InvalidCredentials` (it does not silently truncate), and the failure
happens before any recipe is written: the run's recipe store stays
empty. -/
theorem malformed_credentials_fail_before_recipe (args : ConvertArgs)
    (env : ConvertEnv) (p : UrlParsed) (kn : Nat × String) (tok : String)
    (rp : String × String)
    (hdr : args.dry_run = false)
    (hto : args.deploy_token = some tok)
    (hreg : splitFirst '/' args.registry = some rp)
    (hcol : splitFirst ':' tok = none)
    (hp : urlparse args.url.toList = Except.ok p)
    (hn : resolveName env.package.name env.nameResponses = some kn)
    (hpre : env.preSize ≠ 0) :
    (convert args env).outcome = Outcome.failed OliveError.invalidCredentials
    ∧ (convert args env).recipe = none := by
  have hcb : credentialsBlock (some tok) args.registry
      = Except.error OliveError.invalidCredentials :=
    credentialsBlock_no_colon tok args.registry rp hreg hcol
  unfold convert emitRecipe
  rw [hdr, hp, hn, hto, hcb]
  cases htd : args.tmp_dir <;> simp [hpre]

/-- C7 witness arguments: deploy token without a colon. -/
def badTokenArgs : ConvertArgs :=
  ⟨false, none, "reg.example.com/proj", some "tokenwithoutcolon",
   "vmnetx+https://olive.example.org/vmi.netx", none⟩

/-- C7 witness: the colon-less token fails with `InvalidCredentials` and
no recipe is written. -/
theorem malformed_credentials_fail_before_recipe_witness :
    (convert badTokenArgs recipeEnv).outcome = Outcome.failed OliveError.invalidCredentials
    ∧ (convert badTokenArgs recipeEnv).recipe = none :=
  malformed_credentials_fail_before_recipe badTokenArgs recipeEnv
    ⟨"vmnetx+https".toList, "olive.example.org".toList, "/vmi.netx".toList, [], [], []⟩
    (0, "Fedora Test VM") "tokenwithoutcolon" ("reg.example.com", "proj")
    rfl rfl rfl rfl rfl rfl (by decide)

/-! ## C10: persistent working directory -/

/-- C10: with an operator-supplied persistent working directory the run
never prompts for push confirmation, never pushes, never removes the
local image, and deletes none of the intermediate files — no publication
or cleanup event appears anywhere in its trace — and it proceeds straight
to recipe emission and completes, writing the identity-keyed recipe. -/
theorem persistent_dir_skips_publication (args : ConvertArgs) (env : ConvertEnv)
    (d : String) (p : UrlParsed) (kn : Nat × String) (cred : String)
    (hdr : args.dry_run = false)
    (htd : args.tmp_dir = some d)
    (hp : urlparse args.url.toList = Except.ok p)
    (hn : resolveName env.package.name env.nameResponses = some kn)
    (hpre : env.preSize ≠ 0)
    (hcred : credentialsBlock args.deploy_token args.registry = Except.ok cred) :
    (convert args env).outcome = Outcome.completed
    ∧ (convert args env).recipe = some (recipePath (deriveUuid p),
        recipeContent kn.2 args.registry (deriveUuid p) (packageCpus env.package)
          (packageMemory env.package) cred)
    ∧ (convert args env).events.all (fun e => !(isPublicationOrCleanup e)) = true := by
  unfold convert emitRecipe
  rw [hdr, hp, hn, htd, hcred]
  refine ⟨by simp [hpre], by simp [hpre], ?_⟩
  cases hvp : args.vmnetx_package <;>
    simp [hpre, List.all_append, List.all_replicate, isPublicationOrCleanup]

/-- C10 witness arguments: persistent working directory `work`, with a
well-formed deploy token. -/
def persistentArgs : ConvertArgs :=
  ⟨false, some "work", "reg.example.com/proj", some "alice:secret",
   "vmnetx+https://olive.example.org/vmi.netx", none⟩

/-- C10 witness: the persistent-directory run completes with a recipe and
an effect trace free of publication/cleanup events. -/
theorem persistent_dir_skips_publication_witness :
    (convert persistentArgs recipeEnv).outcome = Outcome.completed
    ∧ (convert persistentArgs recipeEnv).recipe
      = some (recipePath (deriveUuid ⟨"vmnetx+https".toList, "olive.example.org".toList,
          "/vmi.netx".toList, [], [], []⟩),
        recipeContent "Fedora Test VM" "reg.example.com/proj"
          (deriveUuid ⟨"vmnetx+https".toList, "olive.example.org".toList,
            "/vmi.netx".toList, [], [], []⟩) 2 128
          ("  containerDiskCredentials:\n    registry: \"reg.example.com\""
            ++ "\n    username: \"alice\"\n    password: \"secret\"\n  restricted: true\n"))
    ∧ (convert persistentArgs recipeEnv).events.all
        (fun e => !(isPublicationOrCleanup e)) = true :=
  persistent_dir_skips_publication persistentArgs recipeEnv "work"
    ⟨"vmnetx+https".toList, "olive.example.org".toList, "/vmi.netx".toList, [], [], []⟩
    (0, "Fedora Test VM")
    ("  containerDiskCredentials:\n    registry: \"reg.example.com\""
      ++ "\n    username: \"alice\"\n    password: \"secret\"\n  restricted: true\n")
    rfl rfl rfl rfl (by decide) (by rfl)

end Olive2022
